import Mathlib

/-!
Verification of the per-guild voice session and TTS playback orchestrator of
the aibot repository, as a shallow embedding in Lean.

The embedding covers:
* `VoiceVoxTTS._resolve_speaker_id` (infrastructure/tts/voicevox.py),
* `TTSSessionDAO` session table operations (infrastructure/dao/tts.py),
* `TTSService` playback orchestration (service/tts.py),
* the voice-state membership watcher
  (discord/events/on_voice_state_update.py).

Python's single-threaded cooperative event loop means every stretch of code
between two `await` suspension points is atomic; the embedding models each
such stretch as one pure state transformation.  Machine-level concerns
(actual sockets, SQLite, the ffmpeg process) are replaced by explicit state
components mutated exactly where the source mutates them.
-/

namespace Aibot

/-- Pointwise update of a map with natural-number keys. -/
def upd {α : Type} (f : Nat → α) (k : Nat) (v : α) : Nat → α :=
  fun k' => if k' = k then v else f k'

theorem upd_same {α : Type} (f : Nat → α) (k : Nat) (v : α) : upd f k v k = v := by
  simp [upd]

theorem upd_other {α : Type} (f : Nat → α) (k : Nat) (v : α) (k' : Nat) (h : k' ≠ k) :
    upd f k v k' = f k' := by
  simp [upd, h]

/-! ## Speaker catalog (`VoiceVoxTTS`, infrastructure/tts/voicevox.py)

The catalog `self.speakers : dict[str, dict[str, int]]` maps a speaker name
to a map from style name to numeric voice id.  Association lists model the
dicts; `List.lookup` returns the value of the first matching key, which
agrees with dict lookup because dict keys are unique. -/

abbrev SpeakerCatalog := List (String × List (String × Nat))

/-- Literal style name substituted by `_resolve_speaker_id` when the style
argument is falsy (VOICEVOX's standard style, "Normal"). -/
def normalStyleName : String := "ノーマル"

/-- Embedding of `VoiceVoxTTS._resolve_speaker_id` (voicevox.py lines 39-47).
Python computes `style_key = style or "ノーマル"`, so both `None` and the
empty string (the two falsy values of `str | None`) are replaced by the
default style name.  The nested dict access with `except KeyError: return
None` becomes two association-list lookups. -/
def resolve_speaker_id (speakers : SpeakerCatalog) (name : String)
    (style : Option String) : Option Nat :=
  let styleKey : String :=
    match style with
    | none => normalStyleName
    | some s => if s = "" then normalStyleName else s
  match speakers.lookup name with
  | none => none
  | some styles => styles.lookup styleKey

/-! ## Session store (`TTSSessionDAO`, infrastructure/dao/tts.py)

The `tts_sessions` SQLite table has `guild_id` as primary key, so it is a
map from guild id to at most one row.  The DAO always passes `str(guild_id)`
for the key; `str` is injective on ids, so the embedding keys rows directly
by the numeric guild id.  Timestamps are abstracted as naturals. -/

structure SessionRow where
  textChannelId : Nat
  voiceChannelId : Nat
  isActive : Bool
  isReadingEnabled : Bool
  readingChannelId : Option Nat
  createdAt : Nat
deriving DecidableEq, Repr

abbrev SessionTable := Nat → Option SessionRow

/-- Row as rewritten by the `end_tts_session` UPDATE. -/
def SessionRow.ended (r : SessionRow) : SessionRow :=
  { r with isActive := false, isReadingEnabled := false, readingChannelId := none }

/-- Row as rewritten by the `toggle_reading` UPDATE: flip the flag; set the
reading channel when enabling, clear it when disabling. -/
def SessionRow.toggled (r : SessionRow) (tc : Nat) : SessionRow :=
  { r with isReadingEnabled := !r.isReadingEnabled,
           readingChannelId := if !r.isReadingEnabled then some tc else none }

/-- Embedding of `TTSSessionDAO.create_tts_session` (dao/tts.py lines 68-93):
`INSERT OR REPLACE` with `is_active=1`, `is_reading_enabled=0`,
`reading_channel_id=NULL` and the current time. -/
def create_tts_session (tbl : SessionTable) (g tc vc now : Nat) : SessionTable :=
  upd tbl g (some { textChannelId := tc, voiceChannelId := vc, isActive := true,
                    isReadingEnabled := false, readingChannelId := none,
                    createdAt := now })

/-- Embedding of `TTSSessionDAO.get_active_tts_session` (dao/tts.py lines
95-120): `SELECT * ... WHERE guild_id = ? AND is_active = 1`. -/
def get_active_tts_session (tbl : SessionTable) (g : Nat) : Option SessionRow :=
  match tbl g with
  | some r => if r.isActive then some r else none
  | none => none

/-- Embedding of `TTSSessionDAO.end_tts_session` (dao/tts.py lines 122-134):
`UPDATE tts_sessions SET is_active = 0, is_reading_enabled = 0,
reading_channel_id = NULL WHERE guild_id = ?`.  Since `guild_id` is the
primary key, at most the one row with that key is rewritten; a missing row
means the `UPDATE` matches nothing. -/
def end_tts_session (tbl : SessionTable) (g : Nat) : SessionTable :=
  fun g' =>
    if g' = g then
      match tbl g with
      | some r => some r.ended
      | none => none
    else tbl g'

/-- Embedding of `TTSSessionDAO.toggle_reading` (dao/tts.py lines 136-190).
The initial `SELECT ... WHERE guild_id = ? AND is_active = 1` is exactly
`get_active_tts_session`; with no active row the function returns `False`
without touching the table, otherwise it flips `is_reading_enabled` and sets
or clears `reading_channel_id`, returning the new status. -/
def toggle_reading (tbl : SessionTable) (g tc : Nat) : SessionTable × Bool :=
  match get_active_tts_session tbl g with
  | none => (tbl, false)
  | some r => (upd tbl g (some (r.toggled tc)), !r.isReadingEnabled)

/-- Session tables reachable from the empty table through the DAO mutation
operations (table creation starts empty; `create_tts_session`,
`end_tts_session` and `toggle_reading` are the only writers of
`tts_sessions`). -/
inductive ReachableTable : SessionTable → Prop where
  | empty : ReachableTable (fun _ => none)
  | create (tbl : SessionTable) (g tc vc now : Nat) :
      ReachableTable tbl → ReachableTable (create_tts_session tbl g tc vc now)
  | endSession (tbl : SessionTable) (g : Nat) :
      ReachableTable tbl → ReachableTable (end_tts_session tbl g)
  | toggle (tbl : SessionTable) (g tc : Nat) :
      ReachableTable tbl → ReachableTable (toggle_reading tbl g tc).1

theorem get_active_eq_some {tbl : SessionTable} {g : Nat} {r : SessionRow}
    (h : get_active_tts_session tbl g = some r) :
    tbl g = some r ∧ r.isActive = true := by
  unfold get_active_tts_session at h
  cases hg : tbl g with
  | none => rw [hg] at h; exact absurd h (by simp)
  | some r0 =>
    rw [hg] at h
    by_cases ha : r0.isActive
    · simp [ha] at h
      exact ⟨by rw [h], by rw [← h]; exact ha⟩
    · simp [ha] at h

/-- In every reachable table, a row that is not active has reading disabled
and no reading channel: `create` writes active rows, `toggle_reading` only
rewrites active rows, and `end_tts_session` zeroes all three fields at
once. -/
theorem reachable_ended_cleared {tbl : SessionTable} (h : ReachableTable tbl) :
    ∀ g r, tbl g = some r → r.isActive = false →
      r.isReadingEnabled = false ∧ r.readingChannelId = none := by
  induction h with
  | empty => intro g r hr _; exact absurd hr (by simp)
  | create tbl g0 tc vc now _ ih =>
    intro g r hr hend
    by_cases hg : g = g0
    · subst hg
      rw [create_tts_session, upd_same] at hr
      cases hr
      simp at hend
    · rw [create_tts_session, upd_other _ _ _ _ hg] at hr
      exact ih g r hr hend
  | endSession tbl g0 _ ih =>
    intro g r hr hend
    by_cases hg : g = g0
    · subst hg
      unfold end_tts_session at hr
      simp at hr
      cases h0 : tbl g with
      | none => rw [h0] at hr; exact absurd hr (by simp)
      | some r0 =>
        rw [h0] at hr
        simp at hr
        rw [← hr]
        exact ⟨rfl, rfl⟩
    · unfold end_tts_session at hr
      simp [hg] at hr
      exact ih g r hr hend
  | toggle tbl g0 tc _ ih =>
    intro g r hr hend
    unfold toggle_reading at hr
    cases hact : get_active_tts_session tbl g0 with
    | none => rw [hact] at hr; exact ih g r hr hend
    | some r0 =>
      rw [hact] at hr
      simp at hr
      obtain ⟨h0, hactive⟩ := get_active_eq_some hact
      by_cases hg : g = g0
      · subst hg
        rw [upd_same] at hr
        cases hr
        simp [SessionRow.toggled] at hend
        rw [hend] at hactive
        exact absurd hactive (by simp)
      · rw [upd_other _ _ _ _ hg] at hr
        exact ih g r hr hend

/-! ## Claims about the session store and the speaker catalog -/

/-- C7: for every guild, `endSession(guildId)` sets `isActive=false`,
`isReadingEnabled=false` and `readingChannelId=null` while leaving
`textChannelId`, `voiceChannelId` and `createdAt` unchanged (the key
`guildId` is untouched and the historical row is preserved, not deleted);
rows of other guilds are untouched; ending a non-existent session changes
nothing, and ending an already-ended session in any table reachable through
the DAO operations changes nothing; no error is possible (the operation is
total). -/
theorem end_tts_session_spec (tbl : SessionTable) (g : Nat) :
    (∀ r, tbl g = some r →
      ∃ r', end_tts_session tbl g g = some r'
        ∧ r'.isActive = false
        ∧ r'.isReadingEnabled = false
        ∧ r'.readingChannelId = none
        ∧ r'.textChannelId = r.textChannelId
        ∧ r'.voiceChannelId = r.voiceChannelId
        ∧ r'.createdAt = r.createdAt)
    ∧ (∀ g', g' ≠ g → end_tts_session tbl g g' = tbl g')
    ∧ (tbl g = none → end_tts_session tbl g = tbl)
    ∧ (ReachableTable tbl → ∀ r, tbl g = some r → r.isActive = false →
        end_tts_session tbl g = tbl) := by
  refine ⟨?_, ?_, ?_, ?_⟩
  · intro r hr
    have h1 : end_tts_session tbl g g = some r.ended := by
      simp [end_tts_session, hr]
    exact ⟨_, h1, rfl, rfl, rfl, rfl, rfl, rfl⟩
  · intro g' h
    simp [end_tts_session, h]
  · intro h
    funext g'
    by_cases hg : g' = g
    · subst hg; simp [end_tts_session, h]
    · simp [end_tts_session, hg]
  · intro hreach r hr hend
    obtain ⟨hre, hrc⟩ := reachable_ended_cleared hreach g r hr hend
    funext g'
    by_cases hg : g' = g
    · subst hg
      simp [end_tts_session, hr, SessionRow.ended]
      cases r
      simp_all
    · simp [end_tts_session, hg]

/-- Example table for the C7 witness: guild 1 has an active session with
reading enabled. -/
def exampleTable7 : SessionTable :=
  fun g => if g = 1 then
    some { textChannelId := 10, voiceChannelId := 20, isActive := true,
           isReadingEnabled := true, readingChannelId := some 7, createdAt := 5 }
  else none

/-- Witness for C7: ending guild 1's session clears the three mutable fields
and preserves the rest; ending absent guild 2 changes nothing. -/
theorem end_tts_session_spec_witness :
    (∃ r', end_tts_session exampleTable7 1 1 = some r'
      ∧ r'.isActive = false
      ∧ r'.isReadingEnabled = false
      ∧ r'.readingChannelId = none
      ∧ r'.textChannelId = 10
      ∧ r'.voiceChannelId = 20
      ∧ r'.createdAt = 5)
    ∧ end_tts_session exampleTable7 2 = exampleTable7 :=
  ⟨(end_tts_session_spec exampleTable7 1).1
      { textChannelId := 10, voiceChannelId := 20, isActive := true,
        isReadingEnabled := true, readingChannelId := some 7, createdAt := 5 } rfl,
   (end_tts_session_spec exampleTable7 2).2.2.1 rfl⟩

/-- C8: `toggleReading(guildId, textChannelId)` with no active session
returns false and leaves the whole table unchanged (and cannot raise, being
total); with an active row it returns the flipped status, sets
`readingChannelId` to the text channel when enabling and clears it when
disabling, keeps the row active and its other fields unchanged, and touches
no other guild's row. -/
theorem toggle_reading_spec (tbl : SessionTable) (g tc : Nat) :
    (get_active_tts_session tbl g = none → toggle_reading tbl g tc = (tbl, false))
    ∧ (∀ r, tbl g = some r → r.isActive = true →
        (toggle_reading tbl g tc).2 = !r.isReadingEnabled
        ∧ ∃ r', (toggle_reading tbl g tc).1 g = some r'
            ∧ r'.isReadingEnabled = !r.isReadingEnabled
            ∧ r'.readingChannelId = (if r.isReadingEnabled then none else some tc)
            ∧ r'.isActive = true
            ∧ r'.textChannelId = r.textChannelId
            ∧ r'.voiceChannelId = r.voiceChannelId
            ∧ r'.createdAt = r.createdAt)
    ∧ (∀ g', g' ≠ g → (toggle_reading tbl g tc).1 g' = tbl g') := by
  refine ⟨?_, ?_, ?_⟩
  · intro h
    simp [toggle_reading, h]
  · intro r hr ha
    have hact : get_active_tts_session tbl g = some r := by
      simp [get_active_tts_session, hr, ha]
    refine ⟨by simp [toggle_reading, hact], ?_⟩
    have h1 : (toggle_reading tbl g tc).1 g = some (r.toggled tc) := by
      simp [toggle_reading, hact, upd_same]
    refine ⟨_, h1, rfl, ?_, ha, rfl, rfl, rfl⟩
    cases hre : r.isReadingEnabled <;> simp [SessionRow.toggled, hre]
  · intro g' hg
    unfold toggle_reading
    cases hact : get_active_tts_session tbl g with
    | none => rfl
    | some r => simp [upd_other _ _ _ _ hg]

/-- Example table for the C8 witness: guild 1 active with reading disabled,
guild 2 has an inactive row. -/
def exampleTable8 : SessionTable :=
  fun g =>
    if g = 1 then
      some { textChannelId := 10, voiceChannelId := 20, isActive := true,
             isReadingEnabled := false, readingChannelId := none, createdAt := 5 }
    else if g = 2 then
      some { textChannelId := 11, voiceChannelId := 21, isActive := false,
             isReadingEnabled := false, readingChannelId := none, createdAt := 6 }
    else none

/-- Witness for C8: toggling guild 1 enables reading on channel 99 and
returns true; toggling guild 2 (inactive row) returns false and mutates
nothing. -/
theorem toggle_reading_spec_witness :
    ((toggle_reading exampleTable8 1 99).2 = true
      ∧ ∃ r', (toggle_reading exampleTable8 1 99).1 1 = some r'
          ∧ r'.isReadingEnabled = true
          ∧ r'.readingChannelId = some 99
          ∧ r'.isActive = true
          ∧ r'.textChannelId = 10
          ∧ r'.voiceChannelId = 20
          ∧ r'.createdAt = 5)
    ∧ toggle_reading exampleTable8 2 99 = (exampleTable8, false) :=
  ⟨(toggle_reading_spec exampleTable8 1 99).2.1
      { textChannelId := 10, voiceChannelId := 20, isActive := true,
        isReadingEnabled := false, readingChannelId := none, createdAt := 5 } rfl rfl,
   (toggle_reading_spec exampleTable8 2 99).1 rfl⟩

/-- C9 counterexample: with catalog `{"A": {"ノーマル": 1}}`, resolving
`("A", "")` yields voice id 1 even though the empty string is not a style of
speaker A, because Python's `style or "ノーマル"` also replaces the falsy
empty string — so exact-match-on-both-keys with NotFound for an unknown
style of a known speaker, as the claim states it for every style name, is
false. -/
theorem resolve_speaker_exact_counterexample :
    resolve_speaker_id [("A", [(normalStyleName, 1)])] ("A") (some ("")) = some 1
    ∧ List.lookup ("") [(normalStyleName, (1 : Nat))] = none :=
  ⟨by decide, by decide⟩

/-- C9 amended: for every style name other than the empty string, lookup is
exact-match on both keys — the stored voice id when both speaker and style
are present, NotFound (`none`) when the speaker is unknown or the style is
unknown for a known speaker, never any other fallback; an empty style name
is replaced by "ノーマル" before the lookup, exactly as a `None` style is. -/
theorem resolve_speaker_exact_amended (speakers : SpeakerCatalog) (name s : String)
    (h : s ≠ "") :
    resolve_speaker_id speakers name (some s) =
      match speakers.lookup name with
      | none => none
      | some styles => styles.lookup s := by
  unfold resolve_speaker_id
  simp [h]

/-- Example catalog for the C9 witness: speaker A with styles normal=1 and
happy=2. -/
def exampleCatalog : SpeakerCatalog :=
  [("A", [("normal", 1), ("happy", 2)])]

/-- Witness for C9 (amended): in the scenario catalog, ("A","happy") resolves
to 2, ("A","sad") and ("B","normal") to NotFound. -/
theorem resolve_speaker_exact_amended_witness :
    resolve_speaker_id exampleCatalog ("A") (some ("happy")) = some 2
    ∧ resolve_speaker_id exampleCatalog ("A") (some ("sad")) = none
    ∧ resolve_speaker_id exampleCatalog ("B") (some ("normal")) = none :=
  ⟨by rw [resolve_speaker_exact_amended exampleCatalog ("A") ("happy") (by decide)]; decide,
   by rw [resolve_speaker_exact_amended exampleCatalog ("A") ("sad") (by decide)]; decide,
   by rw [resolve_speaker_exact_amended exampleCatalog ("B") ("normal") (by decide)]; decide⟩

/-- C10: a `None` style is substituted by the literal style name "ノーマル"
before the lookup: for every catalog and speaker, resolving with no style
returns exactly the id stored under the speaker's "ノーマル" style (NotFound
when the speaker or that style is absent), never the first listed style or
any other fallback. -/
theorem resolve_speaker_default_style (speakers : SpeakerCatalog) (name : String) :
    resolve_speaker_id speakers name none =
      match speakers.lookup name with
      | none => none
      | some styles => styles.lookup normalStyleName := rfl

/-! ## Playback orchestrator (`TTSService`, service/tts.py)

One asyncio event loop runs everything, so code between two `await`
suspension points executes atomically.  In `queue_message` the whole
`async with state.worker_lock` block contains no suspension point (task
creation does not suspend), so admission is one atomic step; the same holds
for the locked block of `stop_guild` and for `_on_worker_done` (a plain
callback).  Tasks are identified by ids allocated from a counter; a task
object's lifecycle lives in the `tasks` map. -/

/-- Status of an asyncio task: running, finished normally, finished with a
stored exception (logged by `_on_worker_done`), or cancelled. -/
inductive TaskStatus where
  | running
  | doneOk
  | doneError
  | cancelled
deriving DecidableEq, Repr

/-- `task.done()`: true for every terminal status. -/
def TaskStatus.isDone : TaskStatus → Bool
  | .running => false
  | _ => true

/-- Embedding of `GuildPlaybackState` (service/tts.py lines 20-23).  The
`worker_lock` is represented by the atomicity of each locked block (see
above); only the recorded worker handle remains, as a task id. -/
structure GuildPlaybackState where
  workerTask : Option Nat
deriving DecidableEq, Repr

/-- State of `TTSService`: the `_started` flag, the per-guild state map
`_guild_states`, the statuses of all tasks ever created, the id for the next
task, and a ghost trace (most recent first) of every `queue_message` call
with its arguments `(guild, text, speaker, style)`.  The trace does not
influence behaviour; it only lets theorems speak about which requests were
made and in which order. -/
structure TTSState where
  started : Bool
  guildStates : Nat → Option GuildPlaybackState
  tasks : Nat → Option TaskStatus
  nextTaskId : Nat
  requested : List (Nat × String × String × Option String)

/-- `handle.done()` for a recorded task id.  In Python the handle is the
task object itself, so it always has a status; a dangling id cannot arise
and is mapped to "done". -/
def TTSState.taskDone (s : TTSState) (t : Nat) : Bool :=
  match s.tasks t with
  | some st => st.isDone
  | none => true

/-- Which branch `queue_message` took: started a worker task, or dropped the
message because one was already running. -/
inductive QueueResult where
  | started (taskId : Nat)
  | dropped
deriving DecidableEq, Repr

/-- Embedding of `TTSService._get_or_create_state` (lines 69-76). -/
def TTSState.getOrCreateState (s : TTSState) (g : Nat) :
    TTSState × GuildPlaybackState :=
  match s.guildStates g with
  | some st => (s, st)
  | none =>
    ({ s with guildStates := upd s.guildStates g (some { workerTask := none }) },
     { workerTask := none })

/-- Lines 169-174 of `queue_message`: create the worker task and record its
handle. -/
def TTSState.startWorker (s : TTSState) (g : Nat) : TTSState × QueueResult :=
  ({ s with tasks := upd s.tasks s.nextTaskId (some .running),
            guildStates := upd s.guildStates g (some { workerTask := some s.nextTaskId }),
            nextTaskId := s.nextTaskId + 1 },
   .started s.nextTaskId)

/-- Embedding of `TTSService.queue_message` (lines 149-174): ensure startup,
record the request (ghost), get or create the guild state, and under the
admission gate either drop (a recorded worker exists and is not done) or
start a fresh worker. -/
def queue_message (s : TTSState) (text name : String) (g : Nat)
    (style : Option String) : TTSState × QueueResult :=
  let s0 : TTSState :=
    { s with started := true,
             requested := (g, text, name, style) :: s.requested }
  let s1 := (s0.getOrCreateState g).1
  let st := (s0.getOrCreateState g).2
  match st.workerTask with
  | some t => if s1.taskDone t then s1.startWorker g else (s1, .dropped)
  | none => s1.startWorker g

/-- Embedding of `TTSService._on_worker_done` (lines 78-88): clear the
recorded handle when it still points at this very task; the rest of the
callback only logs. -/
def on_worker_done (s : TTSState) (g t : Nat) : TTSState :=
  match s.guildStates g with
  | some st =>
    if st.workerTask = some t then
      { s with guildStates := upd s.guildStates g (some { workerTask := none }) }
    else s
  | none => s

/-- The event-loop step in which worker task `t` of guild `g` reaches a
terminal status (success, logged failure — `_play_once` catches every
exception — or cancellation) and its done callback runs. -/
def finish_worker (s : TTSState) (g t : Nat) (outcome : TaskStatus) : TTSState :=
  on_worker_done { s with tasks := upd s.tasks t (some outcome) } g t

/-- Embedding of `TTSService.is_running` (lines 208-212). -/
def TTSState.is_running (s : TTSState) (g : Nat) : Bool :=
  match s.guildStates g with
  | none => false
  | some st =>
    match st.workerTask with
    | none => false
    | some t => !s.taskDone t

theorem startWorker_spec (s1 : TTSState) (g : Nat) :
    (s1.startWorker g).2 = .started s1.nextTaskId
    ∧ (s1.startWorker g).1.guildStates g = some { workerTask := some s1.nextTaskId }
    ∧ (s1.startWorker g).1.tasks s1.nextTaskId = some .running
    ∧ (∀ t, t ≠ s1.nextTaskId → (s1.startWorker g).1.tasks t = s1.tasks t)
    ∧ (s1.startWorker g).1.nextTaskId = s1.nextTaskId + 1 := by
  refine ⟨rfl, ?_, ?_, ?_, rfl⟩
  · simp [TTSState.startWorker, upd_same]
  · simp [TTSState.startWorker, upd_same]
  · intro t ht
    simp [TTSState.startWorker, upd_other _ _ _ _ ht]

/-- C1: admission control of `queue_message`.  When the guild's recorded
worker exists and is not finished (exactly the condition `is_running`
computes), the call returns normally with the message dropped: no task is
created or mutated, the worker-id counter does not advance, and the recorded
handle is untouched (there is no queue anywhere in the state to put the
message in).  Otherwise exactly one new worker task is started — the next
task id, now running — and its handle is recorded; all other task slots are
untouched.  Totality of `queue_message` is the absence of errors. -/
theorem queue_message_admission (s : TTSState) (text name : String) (g : Nat)
    (style : Option String) :
    (s.is_running g = true →
      (queue_message s text name g style).2 = .dropped
      ∧ (queue_message s text name g style).1.guildStates g = s.guildStates g
      ∧ (queue_message s text name g style).1.tasks = s.tasks
      ∧ (queue_message s text name g style).1.nextTaskId = s.nextTaskId)
    ∧ (s.is_running g = false →
      (queue_message s text name g style).2 = .started s.nextTaskId
      ∧ (queue_message s text name g style).1.guildStates g
          = some { workerTask := some s.nextTaskId }
      ∧ (queue_message s text name g style).1.tasks s.nextTaskId = some .running
      ∧ (∀ t, t ≠ s.nextTaskId →
          (queue_message s text name g style).1.tasks t = s.tasks t)
      ∧ (queue_message s text name g style).1.nextTaskId = s.nextTaskId + 1) := by
  constructor
  · intro hrun
    cases hg : s.guildStates g with
    | none => simp [TTSState.is_running, hg] at hrun
    | some st =>
      cases ht : st.workerTask with
      | none => simp [TTSState.is_running, hg, ht] at hrun
      | some t =>
        cases htt : s.tasks t with
        | none =>
          simp [TTSState.is_running, TTSState.taskDone, hg, ht, htt] at hrun
        | some status =>
          cases status with
          | running =>
            refine ⟨?_, ?_, ?_, ?_⟩ <;>
              simp [queue_message, TTSState.getOrCreateState, TTSState.taskDone,
                    TaskStatus.isDone, hg, ht, htt]
          | doneOk =>
            simp [TTSState.is_running, TTSState.taskDone, TaskStatus.isDone,
                  hg, ht, htt] at hrun
          | doneError =>
            simp [TTSState.is_running, TTSState.taskDone, TaskStatus.isDone,
                  hg, ht, htt] at hrun
          | cancelled =>
            simp [TTSState.is_running, TTSState.taskDone, TaskStatus.isDone,
                  hg, ht, htt] at hrun
  · intro hrun
    have key : ∀ P : TTSState × QueueResult → Prop,
        (∀ s1 : TTSState, s1.tasks = s.tasks → s1.nextTaskId = s.nextTaskId →
          P (s1.startWorker g)) →
        P (queue_message s text name g style) := by
      intro P hP
      cases hg : s.guildStates g with
      | none =>
        simp only [queue_message, TTSState.getOrCreateState, hg]
        exact hP _ rfl rfl
      | some st =>
        cases ht : st.workerTask with
        | none =>
          simp only [queue_message, TTSState.getOrCreateState, hg, ht]
          exact hP _ rfl rfl
        | some t =>
          cases htt : s.tasks t with
          | none =>
            simp only [queue_message, TTSState.getOrCreateState,
                       TTSState.taskDone, hg, ht, htt]
            exact hP _ rfl rfl
          | some status =>
            cases status with
            | running =>
              simp [TTSState.is_running, TTSState.taskDone, TaskStatus.isDone,
                    hg, ht, htt] at hrun
            | doneOk =>
              simp only [queue_message, TTSState.getOrCreateState,
                         TTSState.taskDone, TaskStatus.isDone, hg, ht, htt]
              exact hP _ rfl rfl
            | doneError =>
              simp only [queue_message, TTSState.getOrCreateState,
                         TTSState.taskDone, TaskStatus.isDone, hg, ht, htt]
              exact hP _ rfl rfl
            | cancelled =>
              simp only [queue_message, TTSState.getOrCreateState,
                         TTSState.taskDone, TaskStatus.isDone, hg, ht, htt]
              exact hP _ rfl rfl
    refine key (fun p => p.2 = .started s.nextTaskId
      ∧ p.1.guildStates g = some { workerTask := some s.nextTaskId }
      ∧ p.1.tasks s.nextTaskId = some .running
      ∧ (∀ t, t ≠ s.nextTaskId → p.1.tasks t = s.tasks t)
      ∧ p.1.nextTaskId = s.nextTaskId + 1) ?_
    intro s1 htasks hnext
    obtain ⟨h1, h2, h3, h4, h5⟩ := startWorker_spec s1 g
    rw [hnext] at h1 h2 h3 h5
    rw [hnext, htasks] at h4
    exact ⟨h1, h2, h3, fun t ht => h4 t ht, h5⟩

/-- Example busy orchestrator state: guild 5 has worker task 0 recorded and
running. -/
def exampleBusyTTS : TTSState where
  started := true
  guildStates := fun g => if g = 5 then some { workerTask := some 0 } else none
  tasks := fun t => if t = 0 then some .running else none
  nextTaskId := 1
  requested := []

/-- Example idle orchestrator state: no guild state at all. -/
def exampleIdleTTS : TTSState where
  started := false
  guildStates := fun _ => none
  tasks := fun _ => none
  nextTaskId := 0
  requested := []

/-- Witness for C1: the busy state drops a second message; the idle state
starts worker 0. -/
theorem queue_message_admission_witness :
    (queue_message exampleBusyTTS ("hi") ("A") 5 none).2 = QueueResult.dropped
    ∧ (queue_message exampleIdleTTS ("hi") ("A") 5 none).2 = QueueResult.started 0 :=
  ⟨((queue_message_admission exampleBusyTTS ("hi") ("A") 5 none).1 (by decide)).1,
   ((queue_message_admission exampleIdleTTS ("hi") ("A") 5 none).2 (by decide)).1⟩

/-- C3: every worker outcome is terminal for that playback attempt only.
The completion step (for success, synthesis failure, sink failure or
timeout alike — `_play_once` catches every exception, so nothing propagates
to the `queue_message` caller, and `_on_worker_done` merely logs) clears the
recorded handle, after which `is_running` is false and a subsequent
`queue_message` for the same guild starts a fresh worker instead of
dropping: the guild is never stuck in Playing. -/
theorem worker_completion_releases (s : TTSState) (g t : Nat)
    (outcome : TaskStatus) (text name : String) (style : Option String)
    (hrec : s.guildStates g = some { workerTask := some t })
    (_hdone : outcome.isDone = true) :
    (finish_worker s g t outcome).guildStates g = some { workerTask := none }
    ∧ (finish_worker s g t outcome).is_running g = false
    ∧ (queue_message (finish_worker s g t outcome) text name g style).2
        = .started (finish_worker s g t outcome).nextTaskId := by
  have h1 : (finish_worker s g t outcome).guildStates g
      = some { workerTask := none } := by
    simp [finish_worker, on_worker_done, hrec, upd_same]
  refine ⟨h1, ?_, ?_⟩
  · simp [TTSState.is_running, h1]
  · simp [queue_message, TTSState.getOrCreateState, TTSState.startWorker, h1]

/-- Example state for the C3 witness: guild 7 has worker task 3 recorded. -/
def exampleBusyTTS2 : TTSState where
  started := true
  guildStates := fun g => if g = 7 then some { workerTask := some 3 } else none
  tasks := fun t => if t = 3 then some .running else none
  nextTaskId := 4
  requested := []

/-- Witness for C3: after worker 3 of guild 7 fails (synthesis error), the
handle is cleared, `is_running` is false, and the next message is accepted
as worker 4. -/
theorem worker_completion_releases_witness :
    (finish_worker exampleBusyTTS2 7 3 .doneError).guildStates 7
        = some { workerTask := none }
    ∧ (finish_worker exampleBusyTTS2 7 3 .doneError).is_running 7 = false
    ∧ (queue_message (finish_worker exampleBusyTTS2 7 3 .doneError)
        ("hi") ("A") 7 none).2
        = .started (finish_worker exampleBusyTTS2 7 3 .doneError).nextTaskId :=
  worker_completion_releases exampleBusyTTS2 7 3 .doneError ("hi") ("A") none
    (by decide) (by decide)

/-! ## The world around the orchestrator

`stop_guild` and the membership watcher also touch the guild's
`discord.VoiceClient` (the audio sink), the durable session table and the
channels of the gateway cache.  `World` bundles those collaborators; each is
mutated exactly where the source mutates it. -/

/-- A guild's `discord.VoiceClient` as the orchestrator observes it:
`is_connected()` and `is_playing()`. -/
structure Sink where
  connected : Bool
  playing : Bool
deriving DecidableEq, Repr

/-- A gateway-cache channel: whether it is a `VoiceChannel`/`StageChannel`,
and the post-event member list as each member's `bot` flag. -/
structure ChannelInfo where
  isVoiceOrStage : Bool
  members : List Bool
deriving DecidableEq, Repr

/-- The orchestrator state plus its collaborators: voice clients per guild
(`none` when the guild has no voice client or it is not a `VoiceClient`
instance), the durable session table, the channel cache, the in-memory
per-guild speaker settings of command/voice.py, and the default settings
those fall back to. -/
structure World where
  tts : TTSState
  voiceClients : Nat → Option Sink
  sessions : SessionTable
  channels : Nat → Option ChannelInfo
  guildSpeakerSettings : Nat → Option (String × String)
  defaultSettings : String × String

/-- Lines 182-190 of `TTSService.stop_guild`: stop the guild's sink when it
is a connected, actively playing voice client. -/
def World.stopSink (w : World) (g : Nat) : World :=
  match w.voiceClients g with
  | some vc =>
    if vc.connected && vc.playing then
      { w with voiceClients := upd w.voiceClients g (some { vc with playing := false }) }
    else w
  | none => w

/-- Lines 192-201 of `TTSService.stop_guild`: under the gate, cancel a
recorded unfinished worker and clear the handle; then await the cancelled
task outside the gate, which drives it to its cancelled terminal status and
runs its done callback (`_on_worker_done`, which finds the handle already
cleared). -/
def cancelWorker (s : TTSState) (g : Nat) (st : GuildPlaybackState) : TTSState :=
  let toAwait : Option Nat :=
    match st.workerTask with
    | some t => if s.taskDone t then none else some t
    | none => none
  let s1 := { s with guildStates := upd s.guildStates g (some { workerTask := none }) }
  match toAwait with
  | some t => finish_worker s1 g t .cancelled
  | none => s1

/-- Embedding of `TTSService.stop_guild` (lines 176-203): return immediately
when the guild has no in-memory state; otherwise stop the sink, cancel and
await the worker, and pop the per-guild state. -/
def stop_guild (w : World) (g : Nat) : World :=
  match w.tts.guildStates g with
  | none => w
  | some st =>
    let w1 := w.stopSink g
    let tts1 := cancelWorker w1.tts g st
    { w1 with tts := { tts1 with guildStates := upd tts1.guildStates g none } }

theorem is_running_of_no_state (s : TTSState) (g : Nat)
    (h : s.guildStates g = none) : s.is_running g = false := by
  simp [TTSState.is_running, h]

theorem stopSink_tts (w : World) (g : Nat) : (w.stopSink g).tts = w.tts := by
  unfold World.stopSink
  cases hvc : w.voiceClients g with
  | none => rfl
  | some vc =>
    by_cases hp : vc.connected && vc.playing
    · simp [hp]
    · simp [hp]

theorem stopSink_sessions (w : World) (g : Nat) :
    (w.stopSink g).sessions = w.sessions := by
  unfold World.stopSink
  cases hvc : w.voiceClients g with
  | none => rfl
  | some vc =>
    by_cases hp : vc.connected && vc.playing
    · simp [hp]
    · simp [hp]

theorem on_worker_done_requested (s : TTSState) (g t : Nat) :
    (on_worker_done s g t).requested = s.requested := by
  unfold on_worker_done
  cases hg : s.guildStates g with
  | none => rfl
  | some st =>
    by_cases hw : st.workerTask = some t
    · simp [hw]
    · simp [hw]

theorem on_worker_done_tasks (s : TTSState) (g t : Nat) :
    (on_worker_done s g t).tasks = s.tasks := by
  unfold on_worker_done
  cases hg : s.guildStates g with
  | none => rfl
  | some st =>
    by_cases hw : st.workerTask = some t
    · simp [hw]
    · simp [hw]

theorem finish_worker_requested (s : TTSState) (g t : Nat) (o : TaskStatus) :
    (finish_worker s g t o).requested = s.requested := by
  unfold finish_worker
  rw [on_worker_done_requested]

theorem finish_worker_tasks_self (s : TTSState) (g t : Nat) (o : TaskStatus) :
    (finish_worker s g t o).tasks t = some o := by
  unfold finish_worker
  rw [on_worker_done_tasks]
  simp [upd_same]

theorem cancelWorker_requested (s : TTSState) (g : Nat) (st : GuildPlaybackState) :
    (cancelWorker s g st).requested = s.requested := by
  unfold cancelWorker
  cases ht : st.workerTask with
  | none => rfl
  | some t =>
    by_cases hd : s.taskDone t
    · simp [hd]
    · simp [hd, finish_worker_requested]

theorem stop_guild_guildStates_none (w : World) (g : Nat) :
    (stop_guild w g).tts.guildStates g = none := by
  unfold stop_guild
  cases hg : w.tts.guildStates g with
  | none => exact hg
  | some st => simp [upd_same]

theorem stop_guild_sessions (w : World) (g : Nat) :
    (stop_guild w g).sessions = w.sessions := by
  unfold stop_guild
  cases hg : w.tts.guildStates g with
  | none => rfl
  | some st => simp [stopSink_sessions]

theorem stop_guild_requested (w : World) (g : Nat) :
    (stop_guild w g).tts.requested = w.tts.requested := by
  unfold stop_guild
  cases hg : w.tts.guildStates g with
  | none => rfl
  | some st =>
    simp only []
    rw [cancelWorker_requested, stopSink_tts]

/-- C2: `stop_guild` for a guild with no in-memory state returns before
touching anything (a no-op, hence idempotent on already-stopped guilds); in
every case it removes the guild's in-memory playback state entirely and
leaves `is_running` false; a recorded still-running worker is cancelled and
awaited, i.e. it has reached its terminal cancelled status by the time the
call returns (no worker survives); and a connected, actively playing sink is
stopped. -/
theorem stop_guild_spec (w : World) (g : Nat) :
    (w.tts.guildStates g = none → stop_guild w g = w)
    ∧ (stop_guild w g).tts.guildStates g = none
    ∧ (stop_guild w g).tts.is_running g = false
    ∧ (∀ st t, w.tts.guildStates g = some st → st.workerTask = some t →
        w.tts.taskDone t = false →
        (stop_guild w g).tts.tasks t = some .cancelled)
    ∧ (∀ st vc, w.tts.guildStates g = some st → w.voiceClients g = some vc →
        vc.connected = true → vc.playing = true →
        (stop_guild w g).voiceClients g = some { vc with playing := false }) := by
  refine ⟨?_, stop_guild_guildStates_none w g, ?_, ?_, ?_⟩
  · intro h
    unfold stop_guild
    rw [h]
  · exact is_running_of_no_state _ _ (stop_guild_guildStates_none w g)
  · intro st t hst ht hrun
    unfold stop_guild
    rw [hst]
    show (cancelWorker (w.stopSink g).tts g st).tasks t = some .cancelled
    rw [stopSink_tts]
    unfold cancelWorker
    rw [ht]
    simp only [hrun, Bool.false_eq_true, if_false]
    exact finish_worker_tasks_self _ g t .cancelled
  · intro st vc hst hvc hc hp
    unfold stop_guild
    rw [hst]
    show (w.stopSink g).voiceClients g = some { vc with playing := false }
    unfold World.stopSink
    rw [hvc]
    simp [hc, hp, upd_same]

/-- TTS state for the C2 witness: guild 5 runs worker 0. -/
def exampleStopTTS : TTSState where
  started := true
  guildStates := fun g => if g = 5 then some { workerTask := some 0 } else none
  tasks := fun t => if t = 0 then some .running else none
  nextTaskId := 1
  requested := []

/-- World for the C2 witness: guild 5 is playing through a connected sink. -/
def exampleWorldStop : World where
  tts := exampleStopTTS
  voiceClients := fun g =>
    if g = 5 then some { connected := true, playing := true } else none
  sessions := fun _ => none
  channels := fun _ => none
  guildSpeakerSettings := fun _ => none
  defaultSettings := ("A", "B")

/-- Witness for C2: stopping guild 5 cancels worker 0 and stops the sink;
stopping guild 9, which has no state, changes nothing. -/
theorem stop_guild_spec_witness :
    (stop_guild exampleWorldStop 5).tts.tasks 0 = some TaskStatus.cancelled
    ∧ (stop_guild exampleWorldStop 5).voiceClients 5
        = some { connected := true, playing := false }
    ∧ stop_guild exampleWorldStop 9 = exampleWorldStop :=
  ⟨(stop_guild_spec exampleWorldStop 5).2.2.2.1 { workerTask := some 0 } 0
      rfl rfl (by decide),
   (stop_guild_spec exampleWorldStop 5).2.2.2.2 { workerTask := some 0 }
      { connected := true, playing := true } rfl rfl rfl rfl,
   (stop_guild_spec exampleWorldStop 9).1 rfl⟩

/-! ## One worker execution (`TTSService._read_text`, lines 102-147)

The worker body is straight-line code whose branches are decided by its
collaborators: the synthesis call (which can succeed, raise, or be the point
at which cancellation fires), the guild / voice-client checks, the
`voice_client.play` call (which can raise a sink error) and the awaited
"playback finished or 120 s timeout" (which can finish, time out, or be the
point at which cancellation fires).  An environment record fixes each of
those outcomes; the function replays the source path for that environment
and reports what happened to the temporary file and the sink. -/

/-- Outcome of `await self.voicevox.synthesize(...)` (line 110).  This await
is the only suspension point before the temporary file is written, so a
cancellation during synthesis arrives here, before any file exists. -/
inductive SynthOutcome where
  | ok
  | synthError
  | cancelledHere
deriving DecidableEq, Repr

/-- Outcome of `await asyncio.wait_for(playback_finished.wait(), timeout=120)`
(line 141): the sink reported completion, the 120-second ceiling fired, or
cancellation arrived at this await. -/
inductive WaitOutcome where
  | finished
  | timedOut
  | cancelledHere
deriving DecidableEq, Repr

/-- Environment resolving every branch of one `_read_text` execution. -/
structure ReadTextEnv where
  synth : SynthOutcome
  guildFound : Bool
  isVoiceClient : Bool
  vcConnected : Bool
  playRaises : Bool
  wait : WaitOutcome
deriving DecidableEq, Repr

/-- How the execution left `_read_text`. -/
inductive ReadTextExit where
  | synthFailed
  | cancelledInSynth
  | noGuild
  | noVoiceClient
  | notConnected
  | sinkRaised
  | completed
  | timedOut
  | cancelledInWait
deriving DecidableEq, Repr

/-- Observable result of one `_read_text` execution. -/
structure ReadTextResult where
  tempCreated : Bool
  tempAtExit : Bool
  sinkStopped : Bool
  exitKind : ReadTextExit
deriving DecidableEq, Repr

/-- The `try:` body, lines 119-144: which way control leaves it and whether
`voice_client.stop()` was called (that happens only in the timeout handler,
line 144).  Early `return`s, a raise from `voice_client.play`, the timeout
path and cancellation in the wait all fall through to the `finally`. -/
def readTextTryBody (env : ReadTextEnv) : ReadTextExit × Bool :=
  if !env.guildFound then (.noGuild, false)
  else if !env.isVoiceClient then (.noVoiceClient, false)
  else if !env.vcConnected then (.notConnected, false)
  else if env.playRaises then (.sinkRaised, false)
  else
    match env.wait with
    | .finished => (.completed, false)
    | .timedOut => (.timedOut, true)
    | .cancelledHere => (.cancelledInWait, false)

/-- Embedding of `TTSService._read_text` (lines 102-147).  A failed or
cancelled synthesis leaves before the temporary file is written (lines
109-113).  On success the file is written with no suspension point (lines
115-117), then the `try` body runs, and the `finally` (lines 145-147)
unlinks the file if it exists — on every way out of the body. -/
def read_text (env : ReadTextEnv) : ReadTextResult :=
  match env.synth with
  | .synthError =>
    { tempCreated := false, tempAtExit := false, sinkStopped := false,
      exitKind := .synthFailed }
  | .cancelledHere =>
    { tempCreated := false, tempAtExit := false, sinkStopped := false,
      exitKind := .cancelledInSynth }
  | .ok =>
    let tempExists := true
    match readTextTryBody env with
    | (ex, stopped) =>
      let tempAfterFinally := if tempExists then false else tempExists
      { tempCreated := true, tempAtExit := tempAfterFinally,
        sinkStopped := stopped, exitKind := ex }

/-- C4: the temporary audio file never survives `_read_text`: on every exit
path the file, if it was created, has been removed when the worker leaves
the function; when cancellation fires mid-synthesis no temporary file was
ever created; and on the 120-second timeout exit the sink has been
force-stopped. -/
theorem read_text_no_temp_leak (env : ReadTextEnv) :
    (read_text env).tempAtExit = false
    ∧ (env.synth = .cancelledHere → (read_text env).tempCreated = false)
    ∧ ((read_text env).exitKind = .timedOut → (read_text env).sinkStopped = true) := by
  refine ⟨?_, ?_, ?_⟩
  · cases hs : env.synth <;>
      simp [read_text, hs]
  · intro hs
    simp [read_text, hs]
  · intro hex
    cases hs : env.synth <;>
      simp [read_text, hs] at hex ⊢ <;>
      try exact absurd hex (by simp)
    unfold readTextTryBody at hex ⊢
    by_cases h1 : env.guildFound
    · by_cases h2 : env.isVoiceClient
      · by_cases h3 : env.vcConnected
        · by_cases h4 : env.playRaises
          · simp [h1, h2, h3, h4] at hex
          · cases hw : env.wait <;> simp [h1, h2, h3, h4, hw] at hex ⊢
        · simp [h1, h2, h3] at hex
      · simp [h1, h2] at hex
    · simp [h1] at hex

/-- Witness for C4: cancellation mid-synthesis creates no file, and the
timeout path stops the sink (with the file removed in both runs). -/
theorem read_text_no_temp_leak_witness :
    (read_text { synth := .cancelledHere, guildFound := true, isVoiceClient := true,
                 vcConnected := true, playRaises := false, wait := .finished }).tempCreated
      = false
    ∧ (read_text { synth := .ok, guildFound := true, isVoiceClient := true,
                   vcConnected := true, playRaises := false, wait := .timedOut }).sinkStopped
      = true :=
  ⟨(read_text_no_temp_leak _).2.1 rfl,
   (read_text_no_temp_leak _).2.2 (by decide)⟩

/-! ## Membership watcher
(`on_voice_state_update`, discord/events/on_voice_state_update.py)

This models the watcher module cited by the spec's §4.5, the handler in
`discord/events/on_voice_state_update.py`.  (The repository also carries an
older handler of the same name in `discord/event.py`, which returns
immediately for the bot's own transitions; the theorems below are about the
watcher module the claims cite.) -/

/-- Embedding of `_get_guild_speaker_settings` (command/voice.py lines
70-88): the guild's in-memory selection, else the process default. -/
def World.getGuildSpeakerSettings (w : World) (g : Nat) : String × String :=
  (w.guildSpeakerSettings g).getD w.defaultSettings

/-- Embedding of `_has_left_voice_channel` (lines 13-22): the member had a
channel before and now has none or a different one. -/
def has_left_voice_channel (before after : Option Nat) : Bool :=
  match before with
  | none => false
  | some b =>
    match after with
    | none => true
    | some a => a != b

/-- Line 27-28 of `_stop_tts_session`: `await voice_client.disconnect()`
when the guild's voice client is connected; a disconnected client is neither
connected nor playing. -/
def disconnectVC (w : World) (g : Nat) : World :=
  match w.voiceClients g with
  | some vc =>
    if vc.connected then
      let vc1 : Sink := { vc with connected := false, playing := false }
      { w with voiceClients := upd w.voiceClients g (some vc1) }
    else w
  | none => w

/-- Line 29 of `_stop_tts_session`: `end_tts_session` on the durable
table. -/
def endSessionW (w : World) (g : Nat) : World :=
  { w with sessions := end_tts_session w.sessions g }

/-- Embedding of `_stop_tts_session` (lines 25-30): disconnect a connected
voice client, end the durable session, stop playback. -/
def stop_tts_session (w : World) (g : Nat) : World :=
  stop_guild (endSessionW (disconnectVC w g) g) g

/-- Embedding of `_get_session_voice_channel` (lines 33-42): the active
session's voice channel when the cached channel is a voice/stage channel. -/
def get_session_voice_channel (w : World) (g : Nat) :
    Option (Nat × ChannelInfo) :=
  match get_active_tts_session w.sessions g with
  | none => none
  | some session =>
    match w.channels session.voiceChannelId with
    | some ch =>
      if ch.isVoiceOrStage then some (session.voiceChannelId, ch) else none
    | none => none

/-- A voice-presence transition as the watcher sees it: the guild, whether
the member is the bot's own connection (`member == client.user`), the
member's bot flag and display name, and the channel ids before and after. -/
structure VoiceEvent where
  guildId : Nat
  isSelf : Bool
  memberIsBot : Bool
  displayName : String
  beforeChannel : Option Nat
  afterChannel : Option Nat

/-- The departure announcement text (line 82). -/
def leaveMessage (displayName : String) : String :=
  displayName ++ "さんが退出しました"

/-- An exception escaping the handler coroutine (discord.py's default
`on_error` only logs it; none of the handler's later statements run). -/
inductive HandlerError where
  | typeErrorAwaitDict
deriving DecidableEq, Repr

/-- Embedding of the watcher handler `on_voice_state_update` (lines 45-96)
as a runner returning the final world and the exception, if one escaped:
ignore non-departures; tear the session down unconditionally when the bot's
own connection left; otherwise, when the vacated channel is the active
session's voice channel, handle the departure.  For a non-bot member, line
83 executes `settings = await _get_guild_speaker_settings(guild_id)`; that
function (command/voice.py line 70) is a plain synchronous `def` returning a
dict, and awaiting a dict raises `TypeError: object dict can't be used in
'await' expression`.  The TypeError escapes the handler before
`queue_message` (line 84) and before the member count and auto-teardown
(lines 91-96); everything executed up to line 83 (checks, the session read,
building `leave_message`, the settings lookup itself) only reads state, so
the world is returned unchanged.  For a bot member the announcement block is
skipped (line 81) and the handler proceeds to recount the non-bot members
and tear the session down when none remain. -/
def on_voice_state_update_run (w : World) (ev : VoiceEvent) :
    World × Option HandlerError :=
  if !has_left_voice_channel ev.beforeChannel ev.afterChannel then (w, none)
  else
    match ev.beforeChannel with
    | none => (w, none)
    | some beforeCh =>
      if ev.isSelf then (stop_tts_session w ev.guildId, none)
      else
        match get_session_voice_channel w ev.guildId with
        | none => (w, none)
        | some (chId, ch) =>
          if beforeCh != chId then (w, none)
          else
            if !ev.memberIsBot then
              (w, some .typeErrorAwaitDict)
            else
              if (ch.members.filter (fun b => !b)).length = 0 then
                (stop_tts_session w ev.guildId, none)
              else (w, none)

/-- The world after the handler, whether it returned or raised. -/
def on_voice_state_update (w : World) (ev : VoiceEvent) : World :=
  (on_voice_state_update_run w ev).1

theorem get_active_end (tbl : SessionTable) (g : Nat) :
    get_active_tts_session (end_tts_session tbl g) g = none := by
  unfold get_active_tts_session end_tts_session
  cases h : tbl g with
  | none => simp
  | some r => simp [SessionRow.ended]

theorem disconnectVC_tts (w : World) (g : Nat) :
    (disconnectVC w g).tts = w.tts := by
  unfold disconnectVC
  cases hvc : w.voiceClients g with
  | none => rfl
  | some vc =>
    by_cases hc : vc.connected
    · simp [hc]
    · simp [hc]

theorem disconnectVC_sessions (w : World) (g : Nat) :
    (disconnectVC w g).sessions = w.sessions := by
  unfold disconnectVC
  cases hvc : w.voiceClients g with
  | none => rfl
  | some vc =>
    by_cases hc : vc.connected
    · simp [hc]
    · simp [hc]

theorem stop_tts_session_get_active (w : World) (g : Nat) :
    get_active_tts_session (stop_tts_session w g).sessions g = none := by
  unfold stop_tts_session
  rw [stop_guild_sessions]
  show get_active_tts_session (end_tts_session (disconnectVC w g).sessions g) g = none
  exact get_active_end _ g

theorem stop_tts_session_state_none (w : World) (g : Nat) :
    (stop_tts_session w g).tts.guildStates g = none := by
  unfold stop_tts_session
  exact stop_guild_guildStates_none _ g

theorem stop_tts_session_requested (w : World) (g : Nat) :
    (stop_tts_session w g).tts.requested = w.tts.requested := by
  unfold stop_tts_session
  rw [stop_guild_requested]
  show (disconnectVC w g).tts.requested = w.tts.requested
  rw [disconnectVC_tts]

theorem getOrCreateState_requested (s : TTSState) (g : Nat) :
    (s.getOrCreateState g).1.requested = s.requested := by
  unfold TTSState.getOrCreateState
  cases hg : s.guildStates g with
  | some st => rfl
  | none => rfl

theorem queue_message_requested (s : TTSState) (text name : String) (g : Nat)
    (style : Option String) :
    (queue_message s text name g style).1.requested
      = (g, text, name, style) :: s.requested := by
  unfold queue_message
  cases hg : s.guildStates g with
  | none => simp [TTSState.getOrCreateState, TTSState.startWorker, hg]
  | some st =>
    cases ht : st.workerTask with
    | none => simp [TTSState.getOrCreateState, TTSState.startWorker, hg, ht]
    | some t =>
      simp only [TTSState.getOrCreateState, hg, ht]
      split <;> rfl

/-- C5: for every voice-presence event in which the transitioning
participant is the bot's own connection (`member == client.user`) and it
left its monitored channel (the active session's voice channel), the watcher
unconditionally ends the guild's durable session and stops playback: after
the handler returns the guild has no active session, no in-memory playback
state and no running worker. -/
theorem self_departure_teardown (w : World) (ev : VoiceEvent) (row : SessionRow)
    (hleft : has_left_voice_channel ev.beforeChannel ev.afterChannel = true)
    (hself : ev.isSelf = true)
    (_hactive : get_active_tts_session w.sessions ev.guildId = some row)
    (hmon : ev.beforeChannel = some row.voiceChannelId) :
    get_active_tts_session (on_voice_state_update w ev).sessions ev.guildId = none
    ∧ (on_voice_state_update w ev).tts.guildStates ev.guildId = none
    ∧ (on_voice_state_update w ev).tts.is_running ev.guildId = false := by
  have hleft2 : has_left_voice_channel (some row.voiceChannelId) ev.afterChannel
      = true := by
    rw [← hmon]; exact hleft
  have heq : on_voice_state_update w ev = stop_tts_session w ev.guildId := by
    unfold on_voice_state_update on_voice_state_update_run
    rw [hmon, hleft2]
    simp only [Bool.not_true, Bool.false_eq_true, if_false, hself, if_true]
  rw [heq]
  exact ⟨stop_tts_session_get_active w ev.guildId,
         stop_tts_session_state_none w ev.guildId,
         is_running_of_no_state _ _ (stop_tts_session_state_none w ev.guildId)⟩

/-- C6: the flow the claim describes does not happen in the source.  For
every event in which a non-bot, non-self participant leaves the active
session's voice channel, line 83 of events/on_voice_state_update.py awaits
the dict returned by the synchronous `_get_guild_speaker_settings` and the
resulting `TypeError` escapes the handler before `queue_message` is called
and before the emptiness check runs: no departure announcement is ever
requested, nothing in the world changes, and the session stays active with
no teardown — even when the recomputed non-bot member count of the channel
is zero. -/
theorem member_departure_flow_bug (w : World) (ev : VoiceEvent)
    (row : SessionRow) (ch : ChannelInfo)
    (hleft : has_left_voice_channel ev.beforeChannel ev.afterChannel = true)
    (hself : ev.isSelf = false)
    (hbot : ev.memberIsBot = false)
    (hactive : get_active_tts_session w.sessions ev.guildId = some row)
    (hch : w.channels row.voiceChannelId = some ch)
    (hvoice : ch.isVoiceOrStage = true)
    (hbefore : ev.beforeChannel = some row.voiceChannelId) :
    (on_voice_state_update_run w ev).2 = some .typeErrorAwaitDict
    ∧ on_voice_state_update w ev = w
    ∧ (on_voice_state_update w ev).tts.requested = w.tts.requested
    ∧ get_active_tts_session (on_voice_state_update w ev).sessions ev.guildId
        = some row := by
  have hsvc : get_session_voice_channel w ev.guildId
      = some (row.voiceChannelId, ch) := by
    simp [get_session_voice_channel, hactive, hch, hvoice]
  have hleft2 : has_left_voice_channel (some row.voiceChannelId) ev.afterChannel
      = true := by
    rw [← hbefore]; exact hleft
  have heq : on_voice_state_update_run w ev = (w, some .typeErrorAwaitDict) := by
    unfold on_voice_state_update_run
    rw [hbefore, hleft2]
    simp only [Bool.not_true, Bool.false_eq_true, if_false, hself, hsvc,
               bne_self_eq_false, hbot, Bool.not_false, if_true]
  refine ⟨?_, ?_, ?_, ?_⟩
  · rw [heq]
  · unfold on_voice_state_update
    rw [heq]
  · unfold on_voice_state_update
    rw [heq]
  · unfold on_voice_state_update
    rw [heq]
    exact hactive

/-- Empty orchestrator state for the watcher witnesses. -/
def exampleEmptyTTS : TTSState where
  started := false
  guildStates := fun _ => none
  tasks := fun _ => none
  nextTaskId := 0
  requested := []

/-- Active session of guild 1 in voice channel 10 for the watcher
witnesses. -/
def exampleWatcherRow : SessionRow where
  textChannelId := 3
  voiceChannelId := 10
  isActive := true
  isReadingEnabled := false
  readingChannelId := none
  createdAt := 0

/-- World for the C5 witness. -/
def exampleWorld5 : World where
  tts := exampleEmptyTTS
  voiceClients := fun _ => none
  sessions := fun g => if g = 1 then some exampleWatcherRow else none
  channels := fun c =>
    if c = 10 then some { isVoiceOrStage := true, members := [] } else none
  guildSpeakerSettings := fun _ => none
  defaultSettings := ("A", "B")

/-- The bot's own connection leaving channel 10 of guild 1. -/
def exampleEvent5 : VoiceEvent where
  guildId := 1
  isSelf := true
  memberIsBot := true
  displayName := "bot"
  beforeChannel := some 10
  afterChannel := none

/-- Witness for C5: the bot's own departure from guild 1's monitored channel
ends the session and leaves no playback state. -/
theorem self_departure_teardown_witness :
    get_active_tts_session
        (on_voice_state_update exampleWorld5 exampleEvent5).sessions 1 = none
    ∧ (on_voice_state_update exampleWorld5 exampleEvent5).tts.guildStates 1 = none
    ∧ (on_voice_state_update exampleWorld5 exampleEvent5).tts.is_running 1 = false :=
  self_departure_teardown exampleWorld5 exampleEvent5 exampleWatcherRow
    rfl rfl rfl rfl

/-- World for the C6 witness: only a bot remains in channel 10 after the
departure, so the claim's flow would end the session and stop playback. -/
def exampleWorld6 : World where
  tts := exampleEmptyTTS
  voiceClients := fun _ => none
  sessions := fun g => if g = 1 then some exampleWatcherRow else none
  channels := fun c =>
    if c = 10 then some { isVoiceOrStage := true, members := [true] } else none
  guildSpeakerSettings := fun _ => none
  defaultSettings := ("A", "B")

/-- A non-bot member leaving channel 10 of guild 1. -/
def exampleEvent6 : VoiceEvent where
  guildId := 1
  isSelf := false
  memberIsBot := false
  displayName := "alice"
  beforeChannel := some 10
  afterChannel := none

/-- Witness for C6 (code bug): alice, a non-bot, leaves guild 1's session
channel with only a bot remaining; the handler raises TypeError, requests no
announcement, and the session survives although the non-bot count is
zero. -/
theorem member_departure_flow_bug_witness :
    (on_voice_state_update_run exampleWorld6 exampleEvent6).2
        = some HandlerError.typeErrorAwaitDict
    ∧ on_voice_state_update exampleWorld6 exampleEvent6 = exampleWorld6
    ∧ (on_voice_state_update exampleWorld6 exampleEvent6).tts.requested = []
    ∧ get_active_tts_session
        (on_voice_state_update exampleWorld6 exampleEvent6).sessions 1
        = some exampleWatcherRow :=
  member_departure_flow_bug exampleWorld6 exampleEvent6 exampleWatcherRow
    { isVoiceOrStage := true, members := [true] } rfl rfl rfl rfl rfl rfl rfl

end Aibot
